import Mathlib

set_option maxRecDepth 10000

/-!
Shallow embedding of the spending-tracker HTTP gateway (`app.py`).

The gateway is glue code around three external services: the Firestore
document store, the Firebase identity service, and the Gemini inference
API. We embed each route handler as a pure Lean function. External
effects are made explicit:

* the document store is a list of `(docId, record)` pairs threaded
  through handlers that write (`Store`);
* the identity service's `auth.verify_id_token` is a function parameter
  `verifyIdToken : String → Except String Obj`;
* the inference call `model.models.generate_content(...).text` is a
  parameter carrying its outcome (`Except String String`), since the
  generated text is opaque to the gateway;
* `base64.b64decode` + `PIL.Image.open` in the receipt route is a
  parameter `decodeImage : JValue → Except String Unit` standing for the
  composite decode step (success carries no data the gateway inspects);
* `firestore.SERVER_TIMESTAMP` is the sentinel `JValue.jtimestamp`;
* the clock (`datetime.now()`) and the store-side range query of the
  summary route are folded into the handler's `docs` argument: the list
  of the caller's transactions the query returned for the period.

JSON numbers are modelled as exact rationals (Python ints are exact;
floats are idealized). Python dict values that arrive in request bodies
are flat in this service, so `JValue` needs no nesting. Exception
message texts that no route inspects (500 bodies wrapping arbitrary
exceptions) are reproduced where fixed by an f-string and abstracted
where they would quote a Python traceback value.
-/

/-- Flat JSON-ish runtime values as the gateway sees them: the request
bodies and stored records of this service hold scalars only. `jdate`
is a Python `datetime` produced by `datetime.strptime(-, "%Y-%m-%d")`;
`jtimestamp` is the `firestore.SERVER_TIMESTAMP` sentinel. -/
inductive JValue where
  | jnull
  | jbool (b : Bool)
  | jnum (q : ℚ)
  | jstr (s : String)
  | jdate (y m d : Nat)
  | jtimestamp
  deriving DecidableEq

/-- A Python dict with string keys, in insertion order. -/
abbrev Obj := List (String × JValue)

/-- Dict lookup (`d[k]` / `d.get(k)`): first entry with the key. -/
def objLookup (o : Obj) (k : String) : Option JValue :=
  match o with
  | [] => none
  | (k₀, v) :: rest => if k₀ = k then some v else objLookup rest k

/-- Python `k in d`. -/
def objMem (o : Obj) (k : String) : Bool :=
  (objLookup o k).isSome

/-- Python `d.get(k, default)`. -/
def objGetD (o : Obj) (k : String) (dflt : JValue) : JValue :=
  (objLookup o k).getD dflt

/-- Python `d[k] = v`: replace in place if the key exists, else append. -/
def objSet (o : Obj) (k : String) (v : JValue) : Obj :=
  match o with
  | [] => [(k, v)]
  | (k₀, v₀) :: rest =>
      if k₀ = k then (k₀, v) :: rest else (k₀, v₀) :: objSet rest k v

/-- An ASCII single-quote character, kept out of string literals. -/
def squote : String := String.singleton (Char.ofNat 39)

/-- The body of the spending-summary 200 response: the computed fields
plus the appended `insights` text. `topCategories` is the sorted list of
`{"category": k, "total_amount": v}` objects. -/
structure SummaryBody where
  period : String
  totalSpent : ℚ
  topCategories : List Obj
  insights : String
  deriving DecidableEq

/-- A `jsonify`-ed response body: a JSON object, a JSON array of
objects, or the summary route's composite object. -/
inductive RespBody where
  | obj (o : Obj)
  | arr (docs : List Obj)
  | summary (s : SummaryBody)
  deriving DecidableEq

/-- An HTTP response: status code and JSON body. -/
structure HttpResponse where
  status : Nat
  body : RespBody
  deriving DecidableEq

/-- `jsonify({"error": msg}), 400` -/
def resp400 (msg : String) : HttpResponse :=
  ⟨400, .obj [("error", .jstr msg)]⟩

/-- `jsonify({"error": msg}), 500` -/
def resp500 (msg : String) : HttpResponse :=
  ⟨500, .obj [("error", .jstr msg)]⟩

/-- `jsonify({"message": msg}), 404` -/
def resp404 (msg : String) : HttpResponse :=
  ⟨404, .obj [("message", .jstr msg)]⟩

/-- An inbound HTTP request as the middleware sees it: Flask's
`request.path`, `request.method`, the `Authorization` header (absent or
its string value), and the JSON body (`request.get_json()`, `none` when
no JSON object is present). -/
structure Request where
  method : String
  path : String
  authorization : Option String
  body : Option Obj

/-- Outcome of the `before_request` middleware: an early response, or
pass-through (with `g.user` set except on the healthcheck skip). -/
inductive AuthResult where
  | reject (r : HttpResponse)
  | skip
  | accept (user : Obj)
  deriving DecidableEq

/-- `verify_token` (`app.py:46-60`): skip `/healthcheck`; require an
`Authorization` header starting with `Bearer `; extract the token as
`auth_header.split('Bearer ')[1]` and verify it against the identity
service, turning a verification failure into a 401. -/
def verify_token (verifyIdToken : String → Except String Obj)
    (req : Request) : AuthResult :=
  if req.path = "/healthcheck" then .skip
  else
    match req.authorization with
    | none =>
        .reject (⟨401, .obj
          [("error", .jstr "Authorization header with Bearer token is required")]⟩)
    | some h =>
        if h.startsWith "Bearer " = false then
          .reject (⟨401, .obj
            [("error", .jstr "Authorization header with Bearer token is required")]⟩)
        else
          match verifyIdToken (((h.splitOn "Bearer ").get? 1).getD "") with
          | .ok user => .accept user
          | .error e =>
              .reject ⟨401, .obj [("error", .jstr ("Invalid or expired token: " ++ e))]⟩

/-- The document store of one collection: `(document id, record)` pairs
in creation order. -/
abbrev Store := List (String × Obj)

/-- A fresh auto-generated document id for `collection.add`. -/
def freshId (store : Store) : String :=
  "doc" ++ toString store.length

/-- `get_users` (`app.py:75-98`): stream every document of the `users`
collection, annotate each with its id, 404 on an empty result. -/
def get_users (dbInit : Bool) (users : Store) : HttpResponse :=
  if dbInit = false then resp500 "Firestore is not initialized."
  else
    let documents := users.map (fun p => objSet p.2 "id" (.jstr p.1))
    if documents.isEmpty then
      resp404 ("No documents found in collection " ++ squote ++ "users" ++ squote ++
        " or collection does not exist.")
    else
      ⟨200, .arr documents⟩

/-- `create_user` (`app.py:100-125`): require a truthy JSON body
containing `email` and `displayName`; persist exactly those two fields
plus the server timestamp; 201 with the generated id. -/
def create_user (dbInit : Bool) (users : Store) (data : Option Obj) :
    HttpResponse × Store :=
  if dbInit = false then (resp500 "Firestore is not initialized.", users)
  else
    match data with
    | none =>
        (resp400 "Missing required fields: email and displayName", users)
    | some d =>
        if d.isEmpty || objMem d "email" = false || objMem d "displayName" = false then
          (resp400 "Missing required fields: email and displayName", users)
        else
          let user_data : Obj :=
            [("email", objGetD d "email" .jnull),
             ("displayName", objGetD d "displayName" .jnull),
             ("createdAt", .jtimestamp)]
          let docId := freshId users
          (⟨201, .obj [("message", .jstr "User created successfully"),
                       ("id", .jstr docId)]⟩,
           users ++ [(docId, user_data)])

/-- `get_transactions` (`app.py:127-153`): stream the documents of the
`transactions` collection whose `userId` equals the caller's uid,
annotate each with its id, 404 on an empty result. -/
def get_transactions (dbInit : Bool) (transactions : Store) (uid : String) :
    HttpResponse :=
  if dbInit = false then resp500 "Firestore is not initialized."
  else
    let documents :=
      (transactions.filter (fun p => objLookup p.2 "userId" = some (.jstr uid))).map
        (fun p => objSet p.2 "id" (.jstr p.1))
    if documents.isEmpty then
      resp404 ("No transactions found for user " ++ uid ++ ".")
    else
      ⟨200, .arr documents⟩

/-- Gregorian leap-year test, as `datetime` validates day-of-month. -/
def isLeapYear (y : Nat) : Bool :=
  (y % 4 = 0 && decide (y % 100 ≠ 0)) || y % 400 = 0

/-- Days in a month of the proleptic Gregorian calendar. -/
def daysInMonth (y m : Nat) : Nat :=
  if m = 2 then (if isLeapYear y then 29 else 28)
  else if m = 4 || m = 6 || m = 9 || m = 11 then 30
  else 31

/-- `datetime.strptime(s, "%Y-%m-%d")` on a string: `%Y` matches exactly
four digits, `%m` and `%d` one or two, the whole string must be
consumed, and the resulting triple must be a valid calendar date with
year at least `MINYEAR = 1`. Returns `none` on the `ValueError` paths. -/
def strptimeYmd (s : String) : Option (Nat × Nat × Nat) :=
  match s.splitOn "-" with
  | [ys, ms, ds] =>
      if ys.length = 4 ∧ ys.all Char.isDigit ∧
          1 ≤ ms.length ∧ ms.length ≤ 2 ∧ ms.all Char.isDigit ∧
          1 ≤ ds.length ∧ ds.length ≤ 2 ∧ ds.all Char.isDigit then
        let y := ys.toNat?.getD 0
        let m := ms.toNat?.getD 0
        let d := ds.toNat?.getD 0
        if 1 ≤ y ∧ 1 ≤ m ∧ m ≤ 12 ∧ 1 ≤ d ∧ d ≤ daysInMonth y m then
          some (y, m, d)
        else none
      else none
  | _ => none

/-- Outcome of `datetime.strptime(data['date'], '%Y-%m-%d')` on an
arbitrary value: `.ok` with the parsed date; `.error true` for the
`ValueError` the handler catches (an unparseable string); `.error false`
for the `TypeError` raised on a non-string argument, which the inner
`except ValueError` does not catch. -/
def strptimeField (v : JValue) : Except Bool (Nat × Nat × Nat) :=
  match v with
  | .jstr s =>
      match strptimeYmd s with
      | some ymd => .ok ymd
      | none => .error true
  | _ => .error false

/-- `create_transaction` (`app.py:225-264`): check the four required
fields in the fixed order `amount`, `category`, `date`, `merchantName`
and 400 on the first one missing; parse the date string (400 on a
`ValueError`); persist `userId` from the authenticated uid, the three
body fields, the parsed date, and the server timestamp; 201 with the
generated id. A `None` body or a non-string date raises past the
specific handlers into the outer catch-all 500. -/
def create_transaction (dbInit : Bool) (transactions : Store) (uid : String)
    (data : Option Obj) : HttpResponse × Store :=
  if dbInit = false then (resp500 "Firestore is not initialized.", transactions)
  else
    match data with
    | none =>
        (resp500 ("An error occurred while creating transaction: argument of type " ++
          squote ++ "NoneType" ++ squote ++ " is not iterable"), transactions)
    | some d =>
        match ["amount", "category", "date", "merchantName"].find?
            (fun f => !objMem d f) with
        | some f => (resp400 ("Missing required field: " ++ f), transactions)
        | none =>
            match strptimeField (objGetD d "date" .jnull) with
            | .error true =>
                (resp400 "Invalid date format. Please use YYYY-MM-DD.", transactions)
            | .error false =>
                (resp500 ("An error occurred while creating transaction: " ++
                  "strptime argument must be a string"), transactions)
            | .ok (y, m, dd) =>
                let transaction_data : Obj :=
                  [("userId", .jstr uid),
                   ("merchantName", objGetD d "merchantName" .jnull),
                   ("amount", objGetD d "amount" .jnull),
                   ("category", objGetD d "category" .jnull),
                   ("date", .jdate y m dd),
                   ("createdAt", .jtimestamp)]
                let docId := freshId transactions
                (⟨201, .obj [("message", .jstr "Transaction created successfully"),
                             ("id", .jstr docId)]⟩,
                 transactions ++ [(docId, transaction_data)])

/-- Python dict-key equality restricted to the flat values a
transaction's `category` can hold: `True == 1 == 1.0`, values of
otherwise distinct types are unequal. -/
def keyEq : JValue → JValue → Bool
  | .jnull, .jnull => true
  | .jbool a, .jbool b => a == b
  | .jbool a, .jnum q => (if a then (1 : ℚ) else 0) == q
  | .jnum q, .jbool b => q == (if b then (1 : ℚ) else 0)
  | .jnum a, .jnum b => a == b
  | .jstr a, .jstr b => a == b
  | .jdate y m d, .jdate y2 m2 d2 => y == y2 && m == m2 && d == d2
  | .jtimestamp, .jtimestamp => true
  | _, _ => false

/-- The `spending_by_category` dict: category key / accumulated total. -/
abbrev SpendMap := List (JValue × ℚ)

/-- `spending_by_category.get(category, 0)`. -/
def dictGetD (m : SpendMap) (k : JValue) (dflt : ℚ) : ℚ :=
  match m with
  | [] => dflt
  | (k₀, v) :: rest => if keyEq k₀ k then v else dictGetD rest k dflt

/-- `spending_by_category[category] = v`: replace the value at an
existing key (the originally inserted key object is kept), else append. -/
def dictSet (m : SpendMap) (k : JValue) (v : ℚ) : SpendMap :=
  match m with
  | [] => [(k, v)]
  | (k₀, v₀) :: rest =>
      if keyEq k₀ k then (k₀, v) :: rest else (k₀, v₀) :: dictSet rest k v

/-- `isinstance(amount, (int, float))`: true for numbers and, because
`bool` subclasses `int` in Python, for booleans. -/
def isNumeric : JValue → Bool
  | .jnum _ => true
  | .jbool _ => true
  | _ => false

/-- The numeric value of a value passing `isNumeric`. -/
def numVal : JValue → ℚ
  | .jnum q => q
  | .jbool b => if b then 1 else 0
  | _ => 0

/-- One iteration of the summary loop (`app.py:188-195`): read
`category` (default `'Other'`) and `amount` (default `0`); when the
amount is numeric, add it to the category's running total and to
`total_spent`, otherwise skip the record entirely. -/
def summaryStep (acc : SpendMap × ℚ) (transaction : Obj) : SpendMap × ℚ :=
  let category := objGetD transaction "category" (.jstr "Other")
  let amount := objGetD transaction "amount" (.jnum 0)
  if isNumeric amount then
    (dictSet acc.1 category (dictGetD acc.1 category 0 + numVal amount),
     acc.2 + numVal amount)
  else acc

/-- The summary loop over the fetched in-period documents: the
`spending_by_category` dict and `total_spent`. -/
def processDocs (docs : List Obj) : SpendMap × ℚ :=
  docs.foldl summaryStep ([], 0)

/-- Stable insertion into a list sorted descending by the accumulated
total: the new element goes after every strictly greater element and
before equal ones that were inserted later, as Python's stable
`sorted(..., reverse=True)` orders them. -/
def insertDesc (x : JValue × ℚ) : SpendMap → SpendMap
  | [] => [x]
  | y :: ys => if y.2 ≤ x.2 then x :: y :: ys else y :: insertDesc x ys

/-- `sorted(entries, key=lambda x: x['total_amount'], reverse=True)`. -/
def sortDesc : SpendMap → SpendMap
  | [] => []
  | x :: xs => insertDesc x (sortDesc xs)

/-- One `topCategories` entry: `{"category": k, "total_amount": v}`. -/
def catEntry (k : JValue) (v : ℚ) : Obj :=
  [("category", k), ("total_amount", .jnum v)]

/-- `get_spending_summary` (`app.py:155-223`): validate the lowercased
`period` query parameter; aggregate the caller's in-period transactions
(the result of the store's `userId ==` and `date >=` range query, here
the `docs` argument); 404 when nothing accumulated; sort per-category
totals descending; append the inference text to the 200 body, any
inference failure falling into the catch-all 500. -/
def get_spending_summary (dbInit : Bool) (uid : String)
    (periodArg : Option String) (docs : List Obj)
    (gen : Except String String) : HttpResponse :=
  if dbInit = false then resp500 "Firestore is not initialized."
  else
    let period := (periodArg.getD "monthly").toLower
    if period ≠ "daily" ∧ period ≠ "weekly" ∧ period ≠ "monthly" then
      resp400 ("Invalid period. Supported values are " ++ squote ++ "daily" ++
        squote ++ ", " ++ squote ++ "weekly" ++ squote ++ ", " ++ squote ++
        "monthly" ++ squote ++ ".")
    else
      let acc := processDocs docs
      if acc.1.isEmpty then
        resp404 ("No transactions found for user " ++ uid ++ " in the " ++
          squote ++ period ++ squote ++ " period.")
      else
        let sorted_summary := (sortDesc acc.1).map (fun p => catEntry p.1 p.2)
        match gen with
        | .error e => resp500 ("An error occurred: " ++ e)
        | .ok insights =>
            ⟨200, .summary ⟨period, acc.2, sorted_summary, insights⟩⟩

/-- The fixed category list (`app.py:15-18`). -/
def SPENDING_CATEGORIES : List String :=
  ["Food & Dining", "Shopping", "Transportation", "Health & Fitness",
   "Entertainment", "Utilities", "Travel", "Other"]

/-- The hard-coded receipt-extraction prompt (`app.py:274`). -/
def receipt_prompt : String :=
  "Scan this receipt. Based on the entire receipt, provide me in JSON format the below information: date(yyyy-MM-dd), merchantName, category(only one category based on the merchant, must select from " ++
  String.intercalate ", " SPENDING_CATEGORIES ++
  "), amount(total amount in the receipt). If the receipt is not valid, return an empty JSON object. "

/-- `receipt_scan` (`app.py:266-287`): read `data['image_data']` (a
missing body or key raises into the catch-all 500 before the decode
guard); decode base64 and open the image (the composite external step
`decodeImage`), turning any failure into a 400 with the underlying
error; only then issue the single inference call. The second component
counts inference calls made while handling the request. -/
def receipt_scan (decodeImage : JValue → Except String Unit) (modelInit : Bool)
    (gen : Except String String) (data : Option Obj) : HttpResponse × Nat :=
  match data with
  | none =>
      (resp500 ("An error occurred while generating content: " ++
        squote ++ "NoneType" ++ squote ++ " object is not subscriptable"), 0)
  | some d =>
      match objLookup d "image_data" with
      | none =>
          (resp500 ("An error occurred while generating content: " ++
            squote ++ "image_data" ++ squote), 0)
      | some image_data =>
          match decodeImage image_data with
          | .error e => (resp400 ("Failed to process image data: " ++ e), 0)
          | .ok _ =>
              if modelInit = false then
                (resp500 ("An error occurred while generating content: " ++
                  squote ++ "NoneType" ++ squote ++ " object has no attribute models"), 0)
              else
                match gen with
                | .error e =>
                    (resp500 ("An error occurred while generating content: " ++ e), 1)
                | .ok t => (⟨200, .obj [("response", .jstr t)]⟩, 1)

/-- Canonical representatives of Python dict-key equality on `JValue`:
booleans collapse onto their numeric values, everything else is itself. -/
inductive KeyRep where
  | knull
  | knum (q : ℚ)
  | kstr (s : String)
  | kdate (y m d : Nat)
  | kts
  deriving DecidableEq

/-- The representative of a `JValue` under Python dict-key equality. -/
def keyRep : JValue → KeyRep
  | .jnull => .knull
  | .jbool b => .knum (if b then 1 else 0)
  | .jnum q => .knum q
  | .jstr s => .kstr s
  | .jdate y m d => .kdate y m d
  | .jtimestamp => .kts

/-- The sum of the accumulated per-category totals of the summary dict. -/
def sumValues (m : SpendMap) : ℚ := (m.map (fun p => p.2)).sum

/-- Every two entries of the dict have keys that Python considers
distinct: no category occurs twice. -/
def keysDistinct (m : SpendMap) : Prop :=
  m.Pairwise (fun a b => keyEq a.1 b.1 = false)

/-- The spec's spending-summary fixture: three current-period
transactions of 10 and 20 dollars on Food and Dining and 5 dollars on
Shopping. -/
def c3fixture : List Obj :=
  [[("userId", .jstr "u1"), ("merchantName", .jstr "Cafe"), ("amount", .jnum 10),
    ("category", .jstr "Food & Dining"), ("date", .jdate 2026 10 3),
    ("createdAt", .jtimestamp)],
   [("userId", .jstr "u1"), ("merchantName", .jstr "Diner"), ("amount", .jnum 20),
    ("category", .jstr "Food & Dining"), ("date", .jdate 2026 10 5),
    ("createdAt", .jtimestamp)],
   [("userId", .jstr "u1"), ("merchantName", .jstr "Mall"), ("amount", .jnum 5),
    ("category", .jstr "Shopping"), ("date", .jdate 2026 10 7),
    ("createdAt", .jtimestamp)]]

/-- A transaction-creation body holding the four required fields plus an
extra `note` field the caller also submits. -/
def c5body : Obj :=
  [("amount", .jnum 5), ("category", .jstr "Shopping"), ("date", .jstr "2024-01-15"),
   ("merchantName", .jstr "m"), ("note", .jstr "hello")]

/-- The transactions collection after creating `c5body` as `u1` in an
empty store. -/
def c5store : Store := (create_transaction true [] "u1" (some c5body)).2

/-- The single record the follow-up list-transactions call returns. -/
def c5doc : Obj :=
  match get_transactions true c5store "u1" with
  | ⟨_, .arr (r :: _)⟩ => r
  | _ => []

/-! Helper lemmas about the summary aggregation and the dict-key
equivalence. -/

theorem boolRat_inj (a b : Bool) :
    ((if a then (1 : ℚ) else 0) = if b then 1 else 0) ↔ a = b := by
  cases a <;> cases b <;> norm_num

theorem keyEq_iff_keyRep (a b : JValue) : keyEq a b = true ↔ keyRep a = keyRep b := by
  cases a <;> cases b <;>
    simp [keyEq, keyRep, boolRat_inj, and_assoc]

theorem keyEq_refl (a : JValue) : keyEq a a = true :=
  (keyEq_iff_keyRep a a).mpr rfl

theorem keyEq_symm {a b : JValue} (h : keyEq a b = true) : keyEq b a = true :=
  (keyEq_iff_keyRep b a).mpr ((keyEq_iff_keyRep a b).mp h).symm

theorem keyEq_trans {a b c : JValue} (h1 : keyEq a b = true) (h2 : keyEq b c = true) :
    keyEq a c = true :=
  (keyEq_iff_keyRep a c).mpr
    (((keyEq_iff_keyRep a b).mp h1).trans ((keyEq_iff_keyRep b c).mp h2))

theorem summaryStep_not_numeric (acc : SpendMap × ℚ) (t : Obj)
    (h : isNumeric (objGetD t "amount" (.jnum 0)) = false) :
    summaryStep acc t = acc := by
  unfold summaryStep
  dsimp only
  rw [h]
  simp

theorem foldl_summaryStep_filter (docs : List Obj) :
    ∀ acc : SpendMap × ℚ,
      docs.foldl summaryStep acc =
        (docs.filter (fun t => isNumeric (objGetD t "amount" (.jnum 0)))).foldl
          summaryStep acc := by
  induction docs with
  | nil => intro acc; rfl
  | cons t ts ih =>
      intro acc
      by_cases h : isNumeric (objGetD t "amount" (.jnum 0)) = true
      · simp only [List.filter_cons, h, if_true, List.foldl_cons]
        exact ih _
      · have h' : isNumeric (objGetD t "amount" (.jnum 0)) = false := by
          cases hx : isNumeric (objGetD t "amount" (.jnum 0)) <;> simp_all
        simp only [List.filter_cons, h', if_false, List.foldl_cons,
          summaryStep_not_numeric _ _ h', Bool.false_eq_true]
        exact ih _

theorem insertDesc_perm (x : JValue × ℚ) (l : SpendMap) :
    (insertDesc x l).Perm (x :: l) := by
  induction l with
  | nil => exact List.Perm.refl _
  | cons y ys ih =>
      unfold insertDesc
      by_cases h : y.2 ≤ x.2
      · rw [if_pos h]
      · rw [if_neg h]
        exact (ih.cons y).trans (List.Perm.swap x y ys)

theorem sortDesc_perm (l : SpendMap) : (sortDesc l).Perm l := by
  induction l with
  | nil => exact List.Perm.refl _
  | cons x xs ih =>
      unfold sortDesc
      exact (insertDesc_perm x (sortDesc xs)).trans (ih.cons x)

theorem insertDesc_sorted (x : JValue × ℚ) (l : SpendMap)
    (h : l.Pairwise (fun a b => b.2 ≤ a.2)) :
    (insertDesc x l).Pairwise (fun a b => b.2 ≤ a.2) := by
  induction l with
  | nil => simp [insertDesc]
  | cons y ys ih =>
      rcases List.pairwise_cons.mp h with ⟨hy, hys⟩
      unfold insertDesc
      by_cases hle : y.2 ≤ x.2
      · rw [if_pos hle]
        refine List.pairwise_cons.mpr ⟨?_, h⟩
        intro z hz
        rcases List.mem_cons.mp hz with rfl | hz
        · exact hle
        · exact le_trans (hy z hz) hle
      · rw [if_neg hle]
        refine List.pairwise_cons.mpr ⟨?_, ih hys⟩
        intro z hz
        rcases List.mem_cons.mp ((insertDesc_perm x ys).mem_iff.mp hz) with rfl | hz'
        · exact le_of_not_le hle
        · exact hy z hz'

theorem sortDesc_sorted (l : SpendMap) :
    (sortDesc l).Pairwise (fun a b => b.2 ≤ a.2) := by
  induction l with
  | nil => simp [sortDesc]
  | cons x xs ih => exact insertDesc_sorted x (sortDesc xs) ih

theorem dictSet_add_sum (m : SpendMap) (k : JValue) (a : ℚ) :
    sumValues (dictSet m k (dictGetD m k 0 + a)) = sumValues m + a := by
  induction m with
  | nil => simp [dictSet, dictGetD, sumValues]
  | cons p rest ih =>
      by_cases h : keyEq p.1 k = true
      · unfold dictSet dictGetD
        rw [if_pos h, if_pos h]
        simp [sumValues]
        ring
      · unfold dictSet dictGetD
        rw [if_neg h, if_neg h]
        simp only [sumValues, List.map_cons, List.sum_cons] at ih ⊢
        rw [ih]
        ring

theorem foldl_total_eq_sum (docs : List Obj) :
    ∀ acc : SpendMap × ℚ, acc.2 = sumValues acc.1 →
      (docs.foldl summaryStep acc).2 = sumValues (docs.foldl summaryStep acc).1 := by
  induction docs with
  | nil => exact fun acc h => h
  | cons t ts ih =>
      intro acc h
      rw [List.foldl_cons]
      apply ih
      unfold summaryStep
      dsimp only
      by_cases hn : isNumeric (objGetD t "amount" (.jnum 0)) = true
      · rw [hn]
        simp only [if_true]
        rw [dictSet_add_sum, h]
      · have h' : isNumeric (objGetD t "amount" (.jnum 0)) = false := by
          cases hx : isNumeric (objGetD t "amount" (.jnum 0)) <;> simp_all
        rw [h']
        simpa using h

theorem mem_dictSet (m : SpendMap) (k : JValue) (v : ℚ) :
    ∀ q ∈ dictSet m k v, keyEq q.1 k = true ∨ q ∈ m := by
  induction m with
  | nil =>
      intro q hq
      rcases List.mem_singleton.mp hq with rfl
      exact Or.inl (keyEq_refl k)
  | cons p rest ih =>
      intro q hq
      unfold dictSet at hq
      by_cases h : keyEq p.1 k = true
      · rw [if_pos h] at hq
        rcases List.mem_cons.mp hq with rfl | hq
        · exact Or.inl h
        · exact Or.inr (List.mem_cons_of_mem p hq)
      · rw [if_neg h] at hq
        rcases List.mem_cons.mp hq with rfl | hq
        · exact Or.inr (List.mem_cons_self p rest)
        · rcases ih q hq with h' | h'
          · exact Or.inl h'
          · exact Or.inr (List.mem_cons_of_mem p h')

theorem dictSet_keysDistinct (m : SpendMap) (k : JValue) (v : ℚ)
    (hm : keysDistinct m) : keysDistinct (dictSet m k v) := by
  induction m with
  | nil => simp [dictSet, keysDistinct]
  | cons p rest ih =>
      rcases List.pairwise_cons.mp hm with ⟨hp, hrest⟩
      unfold dictSet
      by_cases h : keyEq p.1 k = true
      · rw [if_pos h]
        exact List.pairwise_cons.mpr ⟨hp, hrest⟩
      · rw [if_neg h]
        refine List.pairwise_cons.mpr ⟨?_, ih hrest⟩
        intro q hq
        rcases mem_dictSet rest k v q hq with h' | h'
        · cases hx : keyEq p.1 q.1 with
          | false => rfl
          | true => exact absurd (keyEq_trans hx h') h
        · exact hp q h'

theorem foldl_keysDistinct (docs : List Obj) :
    ∀ acc : SpendMap × ℚ, keysDistinct acc.1 →
      keysDistinct (docs.foldl summaryStep acc).1 := by
  induction docs with
  | nil => exact fun acc h => h
  | cons t ts ih =>
      intro acc h
      rw [List.foldl_cons]
      apply ih
      unfold summaryStep
      dsimp only
      by_cases hn : isNumeric (objGetD t "amount" (.jnum 0)) = true
      · rw [hn]
        simp only [if_true]
        exact dictSet_keysDistinct _ _ _ h
      · have h' : isNumeric (objGetD t "amount" (.jnum 0)) = false := by
          cases hx : isNumeric (objGetD t "amount" (.jnum 0)) <;> simp_all
        rw [h']
        simpa using h

theorem keysDistinct_symmetric :
    Symmetric (fun (a b : JValue × ℚ) => keyEq a.1 b.1 = false) := by
  intro a b h
  cases hx : keyEq b.1 a.1 with
  | false => rfl
  | true => exact absurd (keyEq_symm hx) (by simp [h])

/-! Claim theorems. -/

/-- C1. For any transaction-creation request by an authenticated caller
`uid`, every record the handler writes to the transactions collection
carries `userId` equal to `uid`; and for two request bodies that differ
only in the value supplied under the `userId` key, the handler produces
the same response and the same store, so a client-supplied `userId`
never influences the persisted record. -/
theorem create_transaction_userId_from_token
    (transactions : Store) (uid : String) (d d₂ : Obj)
    (hagree : ∀ k, k ≠ "userId" → objLookup d k = objLookup d₂ k) :
    (∀ p ∈ (create_transaction true transactions uid (some d)).2,
        p ∉ transactions → objLookup p.2 "userId" = some (.jstr uid)) ∧
    create_transaction true transactions uid (some d) =
      create_transaction true transactions uid (some d₂) := by
  constructor
  · intro p hp hnot
    unfold create_transaction at hp
    rw [if_neg (by simp : ¬(true = false))] at hp
    dsimp only at hp
    split at hp
    · exact absurd hp hnot
    · split at hp
      · exact absurd hp hnot
      · exact absurd hp hnot
      · rcases List.mem_append.mp hp with h | h
        · exact absurd h hnot
        · rcases List.mem_singleton.mp h with rfl
          simp [objLookup]
  · have ma : objMem d "amount" = objMem d₂ "amount" := by
      unfold objMem; rw [hagree "amount" (by decide)]
    have mc : objMem d "category" = objMem d₂ "category" := by
      unfold objMem; rw [hagree "category" (by decide)]
    have md : objMem d "date" = objMem d₂ "date" := by
      unfold objMem; rw [hagree "date" (by decide)]
    have mm : objMem d "merchantName" = objMem d₂ "merchantName" := by
      unfold objMem; rw [hagree "merchantName" (by decide)]
    have ga : objGetD d "amount" .jnull = objGetD d₂ "amount" .jnull := by
      unfold objGetD; rw [hagree "amount" (by decide)]
    have gc : objGetD d "category" .jnull = objGetD d₂ "category" .jnull := by
      unfold objGetD; rw [hagree "category" (by decide)]
    have gd : objGetD d "date" .jnull = objGetD d₂ "date" .jnull := by
      unfold objGetD; rw [hagree "date" (by decide)]
    have gm : objGetD d "merchantName" .jnull = objGetD d₂ "merchantName" .jnull := by
      unfold objGetD; rw [hagree "merchantName" (by decide)]
    unfold create_transaction
    simp only [List.find?, ma, mc, md, mm, ga, gc, gd, gm]

theorem create_transaction_userId_from_token_witness :
    create_transaction true [] "u1"
      (some [("userId", .jstr "victim"), ("amount", .jnum 5),
             ("category", .jstr "Shopping"), ("date", .jstr "2024-01-15"),
             ("merchantName", .jstr "m")]) =
    create_transaction true [] "u1"
      (some [("userId", .jstr "someoneElse"), ("amount", .jnum 5),
             ("category", .jstr "Shopping"), ("date", .jstr "2024-01-15"),
             ("merchantName", .jstr "m")]) :=
  (create_transaction_userId_from_token [] "u1" _ _ (fun k hk => by
    have h' : ¬("userId" = k) := fun h => hk h.symm
    simp only [objLookup]
    rw [if_neg h', if_neg h'])).2

/-- C2. Any request whose path is not the health-check route and whose
Authorization header is absent or does not begin with the string
`Bearer ` is rejected by the middleware with HTTP 401 and the fixed
error body, whatever the request method, path, or body content and
whatever the external token verifier would do. -/
theorem verify_token_unauthorized_401
    (verifyIdToken : String → Except String Obj) (req : Request)
    (hpath : req.path ≠ "/healthcheck")
    (hauth : ∀ h, req.authorization = some h → h.startsWith "Bearer " = false) :
    verify_token verifyIdToken req =
      .reject ⟨401, .obj
        [("error", .jstr "Authorization header with Bearer token is required")]⟩ := by
  unfold verify_token
  rw [if_neg hpath]
  cases hA : req.authorization with
  | none => rfl
  | some h =>
      dsimp only
      rw [hauth h hA]
      rfl

theorem verify_token_unauthorized_401_witness :
    verify_token (fun _ => .error "boom")
      ⟨"POST", "/transactions", none, some [("userId", .jstr "someone")]⟩ =
      .reject ⟨401, .obj
        [("error", .jstr "Authorization header with Bearer token is required")]⟩ :=
  verify_token_unauthorized_401 _ _ (by decide) (fun h hk => by cases hk)

/-- C3. The spending-summary aggregation counts exactly the records
whose `amount` passes the numeric check (records with a non-numeric
amount change neither the per-category dict nor the overall total), the
reported categories are sorted by accumulated total in non-increasing
order, and on the fixture of three current-period transactions (10 and
20 on Food and Dining, 5 on Shopping) the endpoint returns 200 with
totalSpent 35 and topCategories Food and Dining 30 then Shopping 5,
whatever insights text the inference call produces. -/
theorem spending_summary_numeric_only_sorted_fixture :
    (∀ docs : List Obj,
      processDocs docs =
        processDocs (docs.filter (fun t => isNumeric (objGetD t "amount" (.jnum 0))))) ∧
    (∀ docs : List Obj,
      (sortDesc (processDocs docs).1).Pairwise (fun a b => b.2 ≤ a.2)) ∧
    (∀ insights : String,
      get_spending_summary true "u1" none c3fixture (.ok insights) =
        ⟨200, .summary ⟨"monthly", 35,
          [catEntry (.jstr "Food & Dining") 30, catEntry (.jstr "Shopping") 5],
          insights⟩⟩) := by
  refine ⟨fun docs => foldl_summaryStep_filter docs _, fun docs => sortDesc_sorted _, ?_⟩
  intro insights
  with_unfolding_all rfl

/-- C4. A transaction-creation request whose JSON body misses at least
one of the four required fields yields HTTP 400 whose message names the
first missing field in the fixed checking order amount, category, date,
merchantName, and the transactions collection is left unchanged. -/
theorem create_transaction_missing_field_400
    (transactions : Store) (uid : String) (d : Obj)
    (hmiss : objMem d "amount" = false ∨ objMem d "category" = false ∨
             objMem d "date" = false ∨ objMem d "merchantName" = false) :
    create_transaction true transactions uid (some d) =
      (resp400 ("Missing required field: " ++
        (if objMem d "amount" = false then "amount"
         else if objMem d "category" = false then "category"
         else if objMem d "date" = false then "date"
         else "merchantName")), transactions) := by
  unfold create_transaction
  cases h1 : objMem d "amount" <;> cases h2 : objMem d "category" <;>
    cases h3 : objMem d "date" <;> cases h4 : objMem d "merchantName" <;>
      simp_all [List.find?]

theorem create_transaction_missing_field_400_witness :
    create_transaction true [] "u1" (some [("category", .jstr "Shopping")]) =
      (resp400 "Missing required field: amount", []) := by
  have := create_transaction_missing_field_400 [] "u1" [("category", .jstr "Shopping")]
    (Or.inl (by decide))
  simpa using this

/-- C5 counterexample. At the concrete input `c5body` the create call
succeeds with 201 and the follow-up list call returns one record, but
that record does not reproduce every submitted field: the extra `note`
field is absent from the fetched record, and the submitted `date`
string is stored as its parsed calendar-date value rather than the
string, so the round-trip claim as stated is false. -/
theorem roundtrip_counterexample :
    (create_transaction true [] "u1" (some c5body)).1.status = 201 ∧
    get_transactions true c5store "u1" = ⟨200, .arr [c5doc]⟩ ∧
    objLookup c5body "note" = some (.jstr "hello") ∧
    objLookup c5doc "note" = none ∧
    objLookup c5body "date" = some (.jstr "2024-01-15") ∧
    objLookup c5doc "date" = some (.jdate 2024 1 15) ∧
    ¬ (∀ k v, objLookup c5body k = some v → objLookup c5doc k = some v) := by
  refine ⟨by with_unfolding_all decide, by with_unfolding_all decide,
    by with_unfolding_all decide, by with_unfolding_all decide,
    by with_unfolding_all decide, by with_unfolding_all decide, ?_⟩
  intro hall
  have h1 := hall "note" (.jstr "hello") (by with_unfolding_all decide)
  have h2 : objLookup c5doc "note" = none := by with_unfolding_all decide
  rw [h2] at h1
  exact Option.noConfusion h1

/-- C5 amended. After a successful create, the corresponding list call
for the same caller returns a record reproducing exactly the persisted
whitelist: for transactions the submitted merchantName, amount and
category unchanged plus the submitted date string as its parsed
calendar-date value, and for users the submitted email and displayName
unchanged; beyond those only the server-assigned userId (transactions),
createdAt and id fields are present, and any other submitted field is
not persisted. -/
theorem create_then_list_roundtrip_amended :
    (∀ (transactions : Store) (uid : String) (d : Obj) (s : String) (y mo dd : Nat),
      objMem d "amount" = true → objMem d "category" = true →
      objMem d "merchantName" = true →
      objLookup d "date" = some (.jstr s) → strptimeYmd s = some (y, mo, dd) →
      ∃ (l : List Obj) (r : Obj),
        (create_transaction true transactions uid (some d)).1.status = 201 ∧
        get_transactions true (create_transaction true transactions uid (some d)).2 uid =
          ⟨200, .arr l⟩ ∧ r ∈ l ∧
        objLookup r "merchantName" = objLookup d "merchantName" ∧
        objLookup r "amount" = objLookup d "amount" ∧
        objLookup r "category" = objLookup d "category" ∧
        objLookup r "date" = some (.jdate y mo dd) ∧
        objLookup r "userId" = some (.jstr uid) ∧
        objLookup r "createdAt" = some .jtimestamp ∧
        (∃ i : String, objLookup r "id" = some (.jstr i)) ∧
        (∀ k, k ≠ "userId" → k ≠ "merchantName" → k ≠ "amount" → k ≠ "category" →
          k ≠ "date" → k ≠ "createdAt" → k ≠ "id" → objLookup r k = none)) ∧
    (∀ (users : Store) (d : Obj),
      objMem d "email" = true → objMem d "displayName" = true →
      ∃ (l : List Obj) (r : Obj),
        (create_user true users (some d)).1.status = 201 ∧
        get_users true (create_user true users (some d)).2 = ⟨200, .arr l⟩ ∧ r ∈ l ∧
        objLookup r "email" = objLookup d "email" ∧
        objLookup r "displayName" = objLookup d "displayName" ∧
        objLookup r "createdAt" = some .jtimestamp ∧
        (∃ i : String, objLookup r "id" = some (.jstr i)) ∧
        (∀ k, k ≠ "email" → k ≠ "displayName" → k ≠ "createdAt" → k ≠ "id" →
          objLookup r k = none)) := by
  constructor
  · intro transactions uid d s y mo dd ha hc hm hdate hparse
    obtain ⟨va, hva⟩ := Option.isSome_iff_exists.mp ha
    obtain ⟨vc, hvc⟩ := Option.isSome_iff_exists.mp hc
    obtain ⟨vm, hvm⟩ := Option.isSome_iff_exists.mp hm
    have hd' : objMem d "date" = true := by unfold objMem; rw [hdate]; rfl
    have hfind : (["amount", "category", "date", "merchantName"].find?
        (fun f => !objMem d f)) = none := by
      simp [List.find?, ha, hc, hm, hd']
    have hstrp : strptimeField (objGetD d "date" .jnull) = .ok (y, mo, dd) := by
      unfold objGetD
      rw [hdate]
      unfold strptimeField
      simp [hparse]
    have hcreate : create_transaction true transactions uid (some d) =
        (⟨201, .obj [("message", .jstr "Transaction created successfully"),
                     ("id", .jstr (freshId transactions))]⟩,
         transactions ++ [(freshId transactions,
           [("userId", .jstr uid),
            ("merchantName", objGetD d "merchantName" .jnull),
            ("amount", objGetD d "amount" .jnull),
            ("category", objGetD d "category" .jnull),
            ("date", .jdate y mo dd),
            ("createdAt", .jtimestamp)])]) := by
      unfold create_transaction
      rw [if_neg (by simp : ¬(true = false))]
      dsimp only
      rw [hfind, hstrp]
    refine ⟨((transactions.filter
        (fun p => objLookup p.2 "userId" = some (.jstr uid))).map
          (fun p => objSet p.2 "id" (.jstr p.1))) ++
        [[("userId", .jstr uid),
          ("merchantName", objGetD d "merchantName" .jnull),
          ("amount", objGetD d "amount" .jnull),
          ("category", objGetD d "category" .jnull),
          ("date", .jdate y mo dd),
          ("createdAt", .jtimestamp),
          ("id", .jstr (freshId transactions))]],
      [("userId", .jstr uid),
       ("merchantName", objGetD d "merchantName" .jnull),
       ("amount", objGetD d "amount" .jnull),
       ("category", objGetD d "category" .jnull),
       ("date", .jdate y mo dd),
       ("createdAt", .jtimestamp),
       ("id", .jstr (freshId transactions))], ?_, ?_, ?_, ?_, ?_, ?_, ?_, ?_, ?_, ?_, ?_⟩
    · rw [hcreate]
    · rw [hcreate]
      unfold get_transactions
      rw [if_neg (by simp : ¬(true = false))]
      dsimp only
      rw [List.filter_append, List.map_append]
      have hfil1 : List.filter
          (fun p => decide (objLookup p.2 "userId" = some (.jstr uid)))
          [(freshId transactions,
            [("userId", .jstr uid),
             ("merchantName", objGetD d "merchantName" .jnull),
             ("amount", objGetD d "amount" .jnull),
             ("category", objGetD d "category" .jnull),
             ("date", .jdate y mo dd),
             ("createdAt", .jtimestamp)])] =
          [(freshId transactions,
            [("userId", .jstr uid),
             ("merchantName", objGetD d "merchantName" .jnull),
             ("amount", objGetD d "amount" .jnull),
             ("category", objGetD d "category" .jnull),
             ("date", .jdate y mo dd),
             ("createdAt", .jtimestamp)])] := by
        simp [List.filter, objLookup]
      rw [hfil1]
      have hobjset : List.map (fun p => objSet p.2 "id" (.jstr p.1))
          [(freshId transactions,
            [("userId", .jstr uid),
             ("merchantName", objGetD d "merchantName" .jnull),
             ("amount", objGetD d "amount" .jnull),
             ("category", objGetD d "category" .jnull),
             ("date", .jdate y mo dd),
             ("createdAt", .jtimestamp)])] =
          [[("userId", .jstr uid),
            ("merchantName", objGetD d "merchantName" .jnull),
            ("amount", objGetD d "amount" .jnull),
            ("category", objGetD d "category" .jnull),
            ("date", .jdate y mo dd),
            ("createdAt", .jtimestamp),
            ("id", .jstr (freshId transactions))]] := by
        simp [objSet]
      rw [hobjset]
      rw [if_neg (by simp : ¬((List.map (fun p => objSet p.2 "id" (.jstr p.1))
          (List.filter (fun p => decide (objLookup p.2 "userId" = some (.jstr uid)))
            transactions) ++
          [[("userId", .jstr uid),
            ("merchantName", objGetD d "merchantName" .jnull),
            ("amount", objGetD d "amount" .jnull),
            ("category", objGetD d "category" .jnull),
            ("date", .jdate y mo dd),
            ("createdAt", .jtimestamp),
            ("id", .jstr (freshId transactions))]]).isEmpty = true))]
    · exact List.mem_append_right _ (List.mem_singleton_self _)
    · simp [objLookup, objGetD, hvm]
    · simp [objLookup, objGetD, hva]
    · simp [objLookup, objGetD, hvc]
    · simp [objLookup]
    · simp [objLookup]
    · simp [objLookup]
    · exact ⟨freshId transactions, by simp [objLookup]⟩
    · intro k h1 h2 h3 h4 h5 h6 h7
      have n1 : ¬("userId" = k) := fun h => h1 h.symm
      have n2 : ¬("merchantName" = k) := fun h => h2 h.symm
      have n3 : ¬("amount" = k) := fun h => h3 h.symm
      have n4 : ¬("category" = k) := fun h => h4 h.symm
      have n5 : ¬("date" = k) := fun h => h5 h.symm
      have n6 : ¬("createdAt" = k) := fun h => h6 h.symm
      have n7 : ¬("id" = k) := fun h => h7 h.symm
      simp only [objLookup]
      rw [if_neg n1, if_neg n2, if_neg n3, if_neg n4, if_neg n5, if_neg n6, if_neg n7]
  · intro users d he hdn
    obtain ⟨ve, hve⟩ := Option.isSome_iff_exists.mp he
    obtain ⟨vd, hvd⟩ := Option.isSome_iff_exists.mp hdn
    have hnonempty : d.isEmpty = false := by
      cases d with
      | nil => simp [objLookup] at hve
      | cons p rest => rfl
    have hcreate : create_user true users (some d) =
        (⟨201, .obj [("message", .jstr "User created successfully"),
                     ("id", .jstr (freshId users))]⟩,
         users ++ [(freshId users,
           [("email", objGetD d "email" .jnull),
            ("displayName", objGetD d "displayName" .jnull),
            ("createdAt", .jtimestamp)])]) := by
      unfold create_user
      rw [if_neg (by simp : ¬(true = false))]
      dsimp only
      rw [if_neg (by simp [hnonempty, he, hdn])]
    refine ⟨(users.map (fun p => objSet p.2 "id" (.jstr p.1))) ++
        [[("email", objGetD d "email" .jnull),
          ("displayName", objGetD d "displayName" .jnull),
          ("createdAt", .jtimestamp),
          ("id", .jstr (freshId users))]],
      [("email", objGetD d "email" .jnull),
       ("displayName", objGetD d "displayName" .jnull),
       ("createdAt", .jtimestamp),
       ("id", .jstr (freshId users))], ?_, ?_, ?_, ?_, ?_, ?_, ?_, ?_⟩
    · rw [hcreate]
    · rw [hcreate]
      unfold get_users
      rw [if_neg (by simp : ¬(true = false))]
      dsimp only
      rw [List.map_append]
      have hobjset : List.map (fun p => objSet p.2 "id" (.jstr p.1))
          [(freshId users,
            [("email", objGetD d "email" .jnull),
             ("displayName", objGetD d "displayName" .jnull),
             ("createdAt", .jtimestamp)])] =
          [[("email", objGetD d "email" .jnull),
            ("displayName", objGetD d "displayName" .jnull),
            ("createdAt", .jtimestamp),
            ("id", .jstr (freshId users))]] := by
        simp [objSet]
      rw [hobjset]
      rw [if_neg (by simp : ¬((List.map (fun p => objSet p.2 "id" (.jstr p.1)) users ++
          [[("email", objGetD d "email" .jnull),
            ("displayName", objGetD d "displayName" .jnull),
            ("createdAt", .jtimestamp),
            ("id", .jstr (freshId users))]]).isEmpty = true))]
    · exact List.mem_append_right _ (List.mem_singleton_self _)
    · simp [objLookup, objGetD, hve]
    · simp [objLookup, objGetD, hvd]
    · simp [objLookup]
    · exact ⟨freshId users, by simp [objLookup]⟩
    · intro k h1 h2 h3 h4
      have n1 : ¬("email" = k) := fun h => h1 h.symm
      have n2 : ¬("displayName" = k) := fun h => h2 h.symm
      have n3 : ¬("createdAt" = k) := fun h => h3 h.symm
      have n4 : ¬("id" = k) := fun h => h4 h.symm
      simp only [objLookup]
      rw [if_neg n1, if_neg n2, if_neg n3, if_neg n4]

theorem create_then_list_roundtrip_amended_witness :
    ∃ (l : List Obj) (r : Obj),
      (create_transaction true [] "u1"
        (some [("amount", .jnum 5), ("category", .jstr "Shopping"),
               ("date", .jstr "2024-01-15"), ("merchantName", .jstr "m")])).1.status = 201 ∧
      get_transactions true (create_transaction true [] "u1"
        (some [("amount", .jnum 5), ("category", .jstr "Shopping"),
               ("date", .jstr "2024-01-15"), ("merchantName", .jstr "m")])).2 "u1" =
        ⟨200, .arr l⟩ ∧ r ∈ l ∧
      objLookup r "merchantName" =
        objLookup [("amount", JValue.jnum 5), ("category", .jstr "Shopping"),
               ("date", .jstr "2024-01-15"), ("merchantName", .jstr "m")] "merchantName" ∧
      objLookup r "amount" =
        objLookup [("amount", JValue.jnum 5), ("category", .jstr "Shopping"),
               ("date", .jstr "2024-01-15"), ("merchantName", .jstr "m")] "amount" ∧
      objLookup r "category" =
        objLookup [("amount", JValue.jnum 5), ("category", .jstr "Shopping"),
               ("date", .jstr "2024-01-15"), ("merchantName", .jstr "m")] "category" ∧
      objLookup r "date" = some (.jdate 2024 1 15) ∧
      objLookup r "userId" = some (.jstr "u1") ∧
      objLookup r "createdAt" = some .jtimestamp ∧
      (∃ i : String, objLookup r "id" = some (.jstr i)) ∧
      (∀ k, k ≠ "userId" → k ≠ "merchantName" → k ≠ "amount" → k ≠ "category" →
        k ≠ "date" → k ≠ "createdAt" → k ≠ "id" → objLookup r k = none) :=
  create_then_list_roundtrip_amended.1 [] "u1"
    [("amount", .jnum 5), ("category", .jstr "Shopping"),
     ("date", .jstr "2024-01-15"), ("merchantName", .jstr "m")]
    "2024-01-15" 2024 1 15 (by decide) (by decide) (by decide) (by decide)
    (by with_unfolding_all decide)

/-- C6. A user-creation request whose body is absent, empty, or missing
`email` or `displayName` yields HTTP 400 with the error message naming
the required fields, and no record is persisted to the users
collection. -/
theorem create_user_missing_fields_400
    (users : Store) (data : Option Obj)
    (h : ∀ d, data = some d →
        d = [] ∨ objMem d "email" = false ∨ objMem d "displayName" = false) :
    create_user true users data =
      (resp400 "Missing required fields: email and displayName", users) := by
  unfold create_user
  cases data with
  | none => rfl
  | some d =>
      rcases h d rfl with h | h | h <;> simp [h]

theorem create_user_missing_fields_400_witness :
    create_user true [] (some [("email", .jstr "a@b.c")]) =
      (resp400 "Missing required fields: email and displayName", []) :=
  create_user_missing_fields_400 [] _ (fun d hd => by
    cases hd; exact Or.inr (Or.inr (by decide)))

/-- C7. A receipt request whose `image_data` value fails the base64
decode or image parse yields HTTP 400 carrying the underlying decode
error, and the inference service is invoked zero times while handling
the request. -/
theorem receipt_scan_bad_image_400_no_inference
    (decodeImage : JValue → Except String Unit) (modelInit : Bool)
    (gen : Except String String) (d : Obj) (v : JValue) (e : String)
    (hv : objLookup d "image_data" = some v) (hdec : decodeImage v = .error e) :
    receipt_scan decodeImage modelInit gen (some d) =
      (resp400 ("Failed to process image data: " ++ e), 0) := by
  unfold receipt_scan
  simp only [hv, hdec]

theorem receipt_scan_bad_image_400_no_inference_witness :
    receipt_scan (fun _ => Except.error "Invalid base64-encoded string") true
      (Except.ok "should never be produced")
      (some [("image_data", .jstr "!!!not-base64!!!")]) =
      (resp400 "Failed to process image data: Invalid base64-encoded string", 0) :=
  receipt_scan_bad_image_400_no_inference (fun _ => Except.error "Invalid base64-encoded string")
    true (Except.ok "should never be produced") [("image_data", .jstr "!!!not-base64!!!")]
    (.jstr "!!!not-base64!!!") "Invalid base64-encoded string" (by decide) rfl

/-- C8. A listing endpoint whose query yields zero records responds
with HTTP 404 and an informational message, and a 200 response from
either listing endpoint always carries a non-empty array: an empty 200
array is impossible. -/
theorem empty_listing_404_never_empty_200 :
    (∀ users : Store, users = [] →
      get_users true users =
        resp404 ("No documents found in collection " ++ squote ++ "users" ++
          squote ++ " or collection does not exist.")) ∧
    (∀ (transactions : Store) (uid : String),
      transactions.filter (fun p => objLookup p.2 "userId" = some (.jstr uid)) = [] →
      get_transactions true transactions uid =
        resp404 ("No transactions found for user " ++ uid ++ ".")) ∧
    (∀ (users : Store) (l : List Obj), get_users true users = ⟨200, .arr l⟩ → l ≠ []) ∧
    (∀ (transactions : Store) (uid : String) (l : List Obj),
      get_transactions true transactions uid = ⟨200, .arr l⟩ → l ≠ []) := by
  refine ⟨?_, ?_, ?_, ?_⟩
  · intro users h; subst h; rfl
  · intro transactions uid h
    unfold get_transactions
    rw [h]
    rfl
  · intro users l h
    unfold get_users at h
    rw [if_neg (by simp : ¬(true = false))] at h
    dsimp only at h
    split at h
    · simp [resp404, HttpResponse.mk.injEq] at h
    · rename_i hne
      simp only [HttpResponse.mk.injEq, RespBody.arr.injEq, true_and] at h
      intro hl
      rw [h, hl] at hne
      simp at hne
  · intro transactions uid l h
    unfold get_transactions at h
    rw [if_neg (by simp : ¬(true = false))] at h
    dsimp only at h
    split at h
    · simp [resp404, HttpResponse.mk.injEq] at h
    · rename_i hne
      simp only [HttpResponse.mk.injEq, RespBody.arr.injEq, true_and] at h
      intro hl
      rw [h, hl] at hne
      simp at hne

theorem empty_listing_404_never_empty_200_witness :
    get_transactions true [] "u9" = resp404 "No transactions found for user u9." :=
  empty_listing_404_never_empty_200.2.1 [] "u9" rfl

/-- C9. A receipt request whose JSON body has no `image_data` key at
all yields HTTP 500 with the catch-all error body rather than 400: the
key access raises before the decode guard, and the inference service is
invoked zero times. -/
theorem receipt_scan_missing_image_key_500
    (decodeImage : JValue → Except String Unit) (modelInit : Bool)
    (gen : Except String String) (d : Obj)
    (hv : objLookup d "image_data" = none) :
    receipt_scan decodeImage modelInit gen (some d) =
      (resp500 ("An error occurred while generating content: " ++
        squote ++ "image_data" ++ squote), 0) := by
  unfold receipt_scan
  simp only [hv]

theorem receipt_scan_missing_image_key_500_witness :
    receipt_scan (fun _ => Except.ok ()) true (Except.ok "unused")
      (some [("prompt", .jstr "scan this")]) =
      (resp500 ("An error occurred while generating content: " ++
        squote ++ "image_data" ++ squote), 0) :=
  receipt_scan_missing_image_key_500 _ _ _ _ (by decide)

/-- C10. Every 200 response of the spending-summary endpoint carries a
summary whose topCategories arise from a list of category-total pairs
in which totalSpent equals the sum of the totals, every two entries
have categories that Python dict-key equality distinguishes (each
category occurs at most once), and the totals are in non-increasing
order. -/
theorem get_spending_summary_200_invariants
    (dbInit : Bool) (uid : String) (periodArg : Option String)
    (docs : List Obj) (gen : Except String String) (resp : HttpResponse)
    (h : get_spending_summary dbInit uid periodArg docs gen = resp)
    (h200 : resp.status = 200) :
    ∃ (s : SummaryBody) (pairs : SpendMap),
      resp.body = .summary s ∧
      s.topCategories = pairs.map (fun p => catEntry p.1 p.2) ∧
      s.totalSpent = sumValues pairs ∧
      keysDistinct pairs ∧
      pairs.Pairwise (fun a b => b.2 ≤ a.2) := by
  unfold get_spending_summary at h
  split at h
  · rw [← h] at h200; simp [resp500] at h200
  · dsimp only at h
    split at h
    · rw [← h] at h200; simp [resp400] at h200
    · split at h
      · rw [← h] at h200; simp [resp404] at h200
      · split at h
        · rw [← h] at h200; simp [resp500] at h200
        · subst h
          refine ⟨_, sortDesc (processDocs docs).1, rfl, rfl, ?_, ?_, sortDesc_sorted _⟩
          · have h1 : (processDocs docs).2 = sumValues (processDocs docs).1 :=
              foldl_total_eq_sum docs ([], 0) (by simp [sumValues])
            have h2 : sumValues (sortDesc (processDocs docs).1) =
                sumValues (processDocs docs).1 := by
              unfold sumValues
              exact List.Perm.sum_eq ((sortDesc_perm _).map _)
            dsimp only
            rw [h1, h2]
          · have h1 : keysDistinct (processDocs docs).1 :=
              foldl_keysDistinct docs ([], 0) (by simp [keysDistinct])
            exact ((sortDesc_perm _).pairwise_iff
              (fun hxy => keysDistinct_symmetric hxy)).mpr h1

theorem get_spending_summary_200_invariants_witness :
    ∃ (s : SummaryBody) (pairs : SpendMap),
      (⟨200, .summary ⟨"monthly", 35,
        [catEntry (.jstr "Food & Dining") 30, catEntry (.jstr "Shopping") 5],
        "hi"⟩⟩ : HttpResponse).body = .summary s ∧
      s.topCategories = pairs.map (fun p => catEntry p.1 p.2) ∧
      s.totalSpent = sumValues pairs ∧
      keysDistinct pairs ∧
      pairs.Pairwise (fun a b => b.2 ≤ a.2) :=
  get_spending_summary_200_invariants true "u1" none c3fixture (.ok "hi") _
    (by with_unfolding_all decide) rfl
